import Mathlib

/-!
Verification of the schema/codec layer of `internal/kv/tables.go`:
the table catalogs, the per-table configuration registry built by `reinit`,
and the DupSort key/value transform parameterized by `TableCfgItem`.

Go maps are modelled as association lists with Go-map lookup/update semantics
(`mapGet` / `mapSet`); Go byte strings are modelled as Lean `String`
(codepoint-wise lexicographic order on `String` coincides with Go's byte-wise
`strings.Compare` order, because UTF-8 encoding preserves codepoint order).
Byte slices handled by the codec are modelled as `List Nat`.
-/

set_option maxRecDepth 100000

/- Table flags, from `const (Default ... ReverseDup)` in tables.go. -/

def Default : Nat := 0x00

def ReverseKey : Nat := 0x02

def DupSort : Nat := 0x04

def IntegerKey : Nat := 0x08

def IntegerDup : Nat := 0x20

def ReverseDup : Nat := 0x40

/-- Per-table configuration record, mirroring `type TableCfgItem struct` in
tables.go.  Field defaults are the Go zero values, so `{}` is Go's
`TableCfgItem{}`.  `DupFromLen`/`DupToLen` are Go `int`, hence `Int`;
`Flags`/`DBI` are Go unsigned integers, hence `Nat`. -/
structure TableCfgItem where
  Flags : Nat := Default
  AutoDupSortKeysConversion : Bool := false
  IsDeprecated : Bool := false
  DBI : Nat := 0
  DupFromLen : Int := 0
  DupToLen : Int := 0
deriving DecidableEq

/-- `type TableCfg map[string]TableCfgItem`, modelled as an association list
with Go-map lookup/update semantics. -/
abbrev TableCfg := List (String × TableCfgItem)

/-- Go map read `m[k]` (with presence bit): first binding of `k`, if any. -/
def mapGet (m : TableCfg) (k : String) : Option TableCfgItem :=
  match m with
  | [] => none
  | p :: rest => if p.1 = k then some p.2 else mapGet rest k

/-- Go map write `m[k] = v`: replace the binding of `k`, or append one. -/
def mapSet (m : TableCfg) (k : String) (v : TableCfgItem) : TableCfg :=
  match m with
  | [] => [(k, v)]
  | p :: rest => if p.1 = k then (k, v) :: rest else p :: mapSet rest k v

/-- Number of bindings of key `k` in the map (Go maps always have 0 or 1). -/
def countKey (m : TableCfg) (k : String) : Nat :=
  (m.filter (fun p => p.1 == k)).length

/- Table name constants, mirroring the `const`/`var` declarations of
tables.go.  Only names reachable from the catalog lists and configuration
maps are reproduced. -/

def PlainState : String := "PlainState"

def PlainContractCode : String := "PlainCodeHash"

def AccountChangeSet : String := "AccountChangeSet"

def StorageChangeSet : String := "StorageChangeSet"

def HashedAccounts : String := "HashedAccount"

def HashedStorage : String := "HashedStorage"

def AccountsHistory : String := "AccountHistory"

def StorageHistory : String := "StorageHistory"

def Code : String := "Code"

def ContractCode : String := "HashedCodeHash"

def IncarnationMap : String := "IncarnationMap"

def ContractTEVMCode : String := "TEVMCode"

def TrieOfAccounts : String := "TrieAccount"

def TrieOfStorage : String := "TrieStorage"

def DatabaseInfo : String := "DbInfo"

def HeaderNumber : String := "HeaderNumber"

def HeaderCanonical : String := "CanonicalHeader"

def Headers : String := "Header"

def HeaderTD : String := "HeadersTotalDifficulty"

def BlockBody : String := "BlockBody"

def EthTx : String := "BlockTransaction"

def NonCanonicalTxs : String := "NonCanonicalTransaction"

def Receipts : String := "Receipt"

def Log : String := "TransactionLog"

def LogTopicIndex : String := "LogTopicIndex"

def LogAddressIndex : String := "LogAddressIndex"

def CallTraceSet : String := "CallTraceSet"

def CallFromIndex : String := "CallFromIndex"

def CallToIndex : String := "CallToIndex"

def CumulativeGasIndex : String := "CumulativeGasIndex"

def CumulativeTransactionIndex : String := "CumulativeTransactionIndex"

def TxLookup : String := "BlockTransactionLookup"

def ConfigTable : String := "Config"

def SyncStageProgress : String := "SyncStage"

def Clique : String := "Clique"

def CliqueSeparate : String := "CliqueSeparate"

def CliqueSnapshot : String := "CliqueSnapshot"

def CliqueLastSnapshot : String := "CliqueLastSnapshot"

def ParliaSnapshot : String := "ParliaSnapshot"

def CurrentExecutionPayload : String := "CurrentExecutionPayload"

def Senders : String := "TxSender"

def HeadBlockKey : String := "LastBlock"

def HeadHeaderKey : String := "LastHeader"

def LastForkchoice : String := "LastForkchoice"

def TransitionBlockKey : String := "TransitionBlock"

def Migrations : String := "Migration"

def Sequence : String := "Sequence"

def Epoch : String := "DevEpoch"

def PendingEpoch : String := "DevPendingEpoch"

def Issuance : String := "Issuance"

def StateAccounts : String := "StateAccounts"

def StateStorage : String := "StateStorage"

def StateCode : String := "StateCode"

def StateCommitment : String := "StateCommitment"

def BorReceipts : String := "BorReceipt"

def BorTxLookup : String := "BlockBorTransactionLookup"

def BorSeparate : String := "BorSeparate"

def BittorrentCompletion : String := "BittorrentCompletion"

def BittorrentInfo : String := "BittorrentInfo"

def AccountKeys : String := "AccountKeys"

def AccountVals : String := "AccountVals"

def AccountHistoryKeys : String := "AccountHistoryKeys"

def AccountHistoryVals : String := "AccountHistoryVals"

def AccountSettings : String := "AccountSettings"

def AccountIdx : String := "AccountIdx"

def StorageKeys : String := "StorageKeys"

def StorageVals : String := "StorageVals"

def StorageHistoryKeys : String := "StorageHistoryKeys"

def StorageHistoryVals : String := "StorageHistoryVals"

def StorageSettings : String := "StorageSettings"

def StorageIdx : String := "StorageIdx"

def CodeKeys : String := "CodeKeys"

def CodeVals : String := "CodeVals"

def CodeHistoryKeys : String := "CodeHistoryKeys"

def CodeHistoryVals : String := "CodeHistoryVals"

def CodeSettings : String := "CodeSettings"

def CodeIdx : String := "CodeIdx"

def LogAddressKeys : String := "LogAddressKeys"

def LogAddressIdx : String := "LogAddressIdx"

def LogTopicsKeys : String := "LogTopicsKeys"

def LogTopicsIdx : String := "LogTopicsIdx"

def TracesFromKeys : String := "TracesFromKeys"

def TracesFromIdx : String := "TracesFromIdx"

def TracesToKeys : String := "TracesToKeys"

def TracesToIdx : String := "TracesToIdx"

def Snapshots : String := "Snapshots"

def RAccountKeys : String := "RAccountKeys"

def RAccountIdx : String := "RAccountIdx"

def RStorageKeys : String := "RStorageKeys"

def RStorageIdx : String := "RStorageIdx"

def RCodeKeys : String := "RCodeKeys"

def RCodeIdx : String := "RCodeIdx"

def PlainStateR : String := "PlainStateR"

def CodeR : String := "CodeR"

def PlainContractR : String := "PlainContractR"

def XAccount : String := "XAccount"

def XStorage : String := "XStorage"

def XCode : String := "XCode"

def RecentLocalTransaction : String := "RecentLocalTransaction"

def PoolTransaction : String := "PoolTransaction"

def PoolInfo : String := "PoolInfo"

/-- `var ChaindataTables = []string{...}`, in source order. -/
def ChaindataTables : List String := [
  AccountsHistory,
  StorageHistory,
  Code,
  ContractCode,
  HeaderNumber,
  BlockBody,
  Receipts,
  TxLookup,
  ConfigTable,
  CurrentExecutionPayload,
  DatabaseInfo,
  IncarnationMap,
  ContractTEVMCode,
  CliqueSeparate,
  CliqueLastSnapshot,
  CliqueSnapshot,
  ParliaSnapshot,
  SyncStageProgress,
  PlainState,
  PlainContractCode,
  AccountChangeSet,
  StorageChangeSet,
  Senders,
  HeadBlockKey,
  HeadHeaderKey,
  LastForkchoice,
  Migrations,
  LogTopicIndex,
  LogAddressIndex,
  CallTraceSet,
  CallFromIndex,
  CallToIndex,
  CumulativeGasIndex,
  CumulativeTransactionIndex,
  Log,
  Sequence,
  EthTx,
  NonCanonicalTxs,
  TrieOfAccounts,
  TrieOfStorage,
  HashedAccounts,
  HashedStorage,
  HeaderCanonical,
  Headers,
  HeaderTD,
  Epoch,
  PendingEpoch,
  Issuance,
  StateAccounts,
  StateStorage,
  StateCode,
  StateCommitment,
  BorReceipts,
  BorTxLookup,
  BorSeparate,
  AccountKeys,
  AccountVals,
  AccountHistoryKeys,
  AccountHistoryVals,
  AccountSettings,
  AccountIdx,
  StorageKeys,
  StorageVals,
  StorageHistoryKeys,
  StorageHistoryVals,
  StorageSettings,
  StorageIdx,
  CodeKeys,
  CodeVals,
  CodeHistoryKeys,
  CodeHistoryVals,
  CodeSettings,
  CodeIdx,
  LogAddressKeys,
  LogAddressIdx,
  LogTopicsKeys,
  LogTopicsIdx,
  TracesFromKeys,
  TracesFromIdx,
  TracesToKeys,
  TracesToIdx,
  Snapshots,
  RAccountKeys,
  RAccountIdx,
  RStorageKeys,
  RStorageIdx,
  RCodeKeys,
  RCodeIdx]

/-- `var TxPoolTables = []string{...}`. -/
def TxPoolTables : List String := [
  RecentLocalTransaction,
  PoolTransaction,
  PoolInfo]

/-- `var SentryTables = []string{}`. -/
def SentryTables : List String := []

/-- `var DownloaderTables = []string{...}`. -/
def DownloaderTables : List String := [
  BittorrentCompletion,
  BittorrentInfo]

/-- `var ReconTables = []string{...}`. -/
def ReconTables : List String := [
  XAccount,
  XStorage,
  XCode,
  PlainStateR,
  CodeR,
  PlainContractR]

/-- `var ChaindataDeprecatedTables = []string{Clique, TransitionBlockKey}`. -/
def ChaindataDeprecatedTables : List String := [
  Clique,
  TransitionBlockKey]

/-- The `PlainState` entry of `ChaindataTablesCfg`. -/
def plainStateItem : TableCfgItem :=
  { Flags := DupSort, AutoDupSortKeysConversion := true, DupFromLen := 60, DupToLen := 28 }

/-- The `HashedStorage` entry of `ChaindataTablesCfg`. -/
def hashedStorageItem : TableCfgItem :=
  { Flags := DupSort, AutoDupSortKeysConversion := true, DupFromLen := 72, DupToLen := 40 }

/-- `var ChaindataTablesCfg = TableCfg{...}`; Go map literals are unordered,
the bindings are listed in source order. -/
def ChaindataTablesCfg : TableCfg := [
  (HashedStorage, hashedStorageItem),
  (AccountChangeSet, { Flags := DupSort }),
  (StorageChangeSet, { Flags := DupSort }),
  (PlainState, plainStateItem),
  (CallTraceSet, { Flags := DupSort }),
  (AccountKeys, { Flags := DupSort }),
  (AccountHistoryKeys, { Flags := DupSort }),
  (AccountIdx, { Flags := DupSort }),
  (StorageKeys, { Flags := DupSort }),
  (StorageHistoryKeys, { Flags := DupSort }),
  (StorageIdx, { Flags := DupSort }),
  (CodeKeys, { Flags := DupSort }),
  (CodeHistoryKeys, { Flags := DupSort }),
  (CodeIdx, { Flags := DupSort }),
  (LogAddressKeys, { Flags := DupSort }),
  (LogAddressIdx, { Flags := DupSort }),
  (LogTopicsKeys, { Flags := DupSort }),
  (LogTopicsIdx, { Flags := DupSort }),
  (TracesFromKeys, { Flags := DupSort }),
  (TracesFromIdx, { Flags := DupSort }),
  (TracesToKeys, { Flags := DupSort }),
  (TracesToIdx, { Flags := DupSort }),
  (RAccountKeys, { Flags := DupSort }),
  (RAccountIdx, { Flags := DupSort }),
  (RStorageKeys, { Flags := DupSort }),
  (RStorageIdx, { Flags := DupSort }),
  (RCodeKeys, { Flags := DupSort }),
  (RCodeIdx, { Flags := DupSort })]

/-- `var TxpoolTablesCfg = TableCfg{}`. -/
def TxpoolTablesCfg : TableCfg := []

/-- `var SentryTablesCfg = TableCfg{}`. -/
def SentryTablesCfg : TableCfg := []

/-- `var DownloaderTablesCfg = TableCfg{}`. -/
def DownloaderTablesCfg : TableCfg := []

/-- `var ReconTablesCfg = TableCfg{}`. -/
def ReconTablesCfg : TableCfg := []

/-- The package-level mutable state touched by `reinit`: the catalog name
lists and the per-catalog configuration maps. -/
structure SchemaState where
  chaindataTables : List String
  txPoolTables : List String
  sentryTables : List String
  downloaderTables : List String
  reconTables : List String
  chaindataDeprecatedTables : List String
  chaindataTablesCfg : TableCfg
  txpoolTablesCfg : TableCfg
  sentryTablesCfg : TableCfg
  downloaderTablesCfg : TableCfg
  reconTablesCfg : TableCfg
deriving DecidableEq

/-- The package state as declared by the `var` initializers, before `init()`
runs `reinit()`. -/
def initState : SchemaState :=
  { chaindataTables := ChaindataTables
    txPoolTables := TxPoolTables
    sentryTables := SentryTables
    downloaderTables := DownloaderTables
    reconTables := ReconTables
    chaindataDeprecatedTables := ChaindataDeprecatedTables
    chaindataTablesCfg := ChaindataTablesCfg
    txpoolTablesCfg := TxpoolTablesCfg
    sentryTablesCfg := SentryTablesCfg
    downloaderTablesCfg := DownloaderTablesCfg
    reconTablesCfg := ReconTablesCfg }

/-- Lexicographic comparison of char lists, byte-for-byte what Go's
`strings.Compare(a, b) <= 0` computes (UTF-8 byte order equals codepoint
order, and a string is `<=` any of its extensions). -/
def charsLe : List Char → List Char → Bool
  | [], _ => true
  | _ :: _, [] => false
  | a :: as, b :: bs => if a < b then true else if b < a then false else charsLe as bs

/-- `strings.Compare(a, b) <= 0`, as a relation on `String`. -/
def strLe (a b : String) : Prop := charsLe a.data b.data = true

instance strLe.decidableRel : DecidableRel strLe :=
  fun a b => inferInstanceAs (Decidable (charsLe a.data b.data = true))

/-- `func sortBuckets()` body, as a function on the name list: a sort of the
list in ascending `strings.Compare` order.  (tables.go uses a stable sort;
on `String`, sorted-by-`strLe` plus being a permutation already determines
the output uniquely, so any correct sort is the same function.) -/
def sortBuckets (l : List String) : List String :=
  List.insertionSort strLe l

/-- The per-catalog fill loop of `reinit`: for every name without a binding,
insert the zero-value `TableCfgItem{}`. -/
def fillDefaults (cfg : TableCfg) : List String → TableCfg
  | [] => cfg
  | name :: rest =>
    fillDefaults (if (mapGet cfg name).isSome then cfg else mapSet cfg name {}) rest

/-- The deprecation loop of `reinit`: ensure a binding exists, then set its
`IsDeprecated` field. -/
def markDeprecated (cfg : TableCfg) : List String → TableCfg
  | [] => cfg
  | name :: rest =>
    let m1 := if (mapGet cfg name).isSome then cfg else mapSet cfg name {}
    let tmp := (mapGet m1 name).getD {}
    markDeprecated (mapSet m1 name { tmp with IsDeprecated := true }) rest

/-- `func reinit()`: sort `ChaindataTables`, fill default entries for every
declared name of every catalog, and flag the chain-data deprecated names. -/
def reinit (st : SchemaState) : SchemaState :=
  let sorted := sortBuckets st.chaindataTables
  { st with
    chaindataTables := sorted
    chaindataTablesCfg :=
      markDeprecated (fillDefaults st.chaindataTablesCfg sorted) st.chaindataDeprecatedTables
    txpoolTablesCfg := fillDefaults st.txpoolTablesCfg st.txPoolTables
    sentryTablesCfg := fillDefaults st.sentryTablesCfg st.sentryTables
    downloaderTablesCfg := fillDefaults st.downloaderTablesCfg st.downloaderTables
    reconTablesCfg := fillDefaults st.reconTablesCfg st.reconTables }

/-- Modelled from the spec: the DupSort `encode` transform (section 4.3).
The codec itself is not part of tables.go, which only documents it on
`TableCfgItem.DupFromLen`: for a key of length `DupFromLen`,
`v = append(k[DupToLen:], v...); k = k[:DupToLen]`, only when
`AutoDupSortKeysConversion` is enabled; other inputs pass through. -/
def encode (cfg : TableCfgItem) (k v : List Nat) : List Nat × List Nat :=
  if cfg.AutoDupSortKeysConversion ∧ (k.length : Int) = cfg.DupFromLen then
    (k.take cfg.DupToLen.toNat, k.drop cfg.DupToLen.toNat ++ v)
  else (k, v)

/-- Modelled from the spec: the DupSort `decode` transform (section 4.3),
the "opposite at retrieval" of `encode`: a physical key of length `DupToLen`
takes back the first `DupFromLen - DupToLen` bytes of the physical value;
other inputs pass through. -/
def decode (cfg : TableCfgItem) (pk pv : List Nat) : List Nat × List Nat :=
  if cfg.AutoDupSortKeysConversion ∧ (pk.length : Int) = cfg.DupToLen then
    (pk ++ pv.take (cfg.DupFromLen - cfg.DupToLen).toNat,
     pv.drop (cfg.DupFromLen - cfg.DupToLen).toNat)
  else (pk, pv)

/-- Completeness of one catalog's configuration map relative to its declared
name list: every declared name is bound exactly once, and names the initial
map did not bind explicitly are bound to the zero value. -/
abbrev catalogComplete (tables : List String) (cfg0 cfg1 : TableCfg) : Prop :=
  ∀ name ∈ tables,
    countKey cfg1 name = 1 ∧ (mapGet cfg0 name = none → mapGet cfg1 name = some {})

/-- Explicit value of the chain-data name list after sorting (helper for
evaluation lemmas). -/
def chaindataTablesSorted : List String := [
  AccountChangeSet,
  AccountsHistory,
  AccountHistoryKeys,
  AccountHistoryVals,
  AccountIdx,
  AccountKeys,
  AccountSettings,
  AccountVals,
  BlockBody,
  BorTxLookup,
  EthTx,
  TxLookup,
  BorReceipts,
  BorSeparate,
  CallFromIndex,
  CallToIndex,
  CallTraceSet,
  HeaderCanonical,
  CliqueLastSnapshot,
  CliqueSeparate,
  CliqueSnapshot,
  Code,
  CodeHistoryKeys,
  CodeHistoryVals,
  CodeIdx,
  CodeKeys,
  CodeSettings,
  CodeVals,
  ConfigTable,
  CumulativeGasIndex,
  CumulativeTransactionIndex,
  CurrentExecutionPayload,
  DatabaseInfo,
  Epoch,
  PendingEpoch,
  HashedAccounts,
  ContractCode,
  HashedStorage,
  Headers,
  HeaderNumber,
  HeaderTD,
  IncarnationMap,
  Issuance,
  HeadBlockKey,
  LastForkchoice,
  HeadHeaderKey,
  LogAddressIdx,
  LogAddressIndex,
  LogAddressKeys,
  LogTopicIndex,
  LogTopicsIdx,
  LogTopicsKeys,
  Migrations,
  NonCanonicalTxs,
  ParliaSnapshot,
  PlainContractCode,
  PlainState,
  RAccountIdx,
  RAccountKeys,
  RCodeIdx,
  RCodeKeys,
  RStorageIdx,
  RStorageKeys,
  Receipts,
  Sequence,
  Snapshots,
  StateAccounts,
  StateCode,
  StateCommitment,
  StateStorage,
  StorageChangeSet,
  StorageHistory,
  StorageHistoryKeys,
  StorageHistoryVals,
  StorageIdx,
  StorageKeys,
  StorageSettings,
  StorageVals,
  SyncStageProgress,
  ContractTEVMCode,
  TracesFromIdx,
  TracesFromKeys,
  TracesToIdx,
  TracesToKeys,
  Log,
  TrieOfAccounts,
  TrieOfStorage,
  Senders]

/-- Shorthand for a plain DupSort-flagged entry. -/
def dupItem : TableCfgItem := { Flags := DupSort }

/-- Shorthand for a zero entry with the deprecation mark set. -/
def depItem : TableCfgItem := { IsDeprecated := true }

/-- Explicit value of the chain-data configuration map after `reinit`
(helper for evaluation lemmas). -/
def chaindataCfgAfter : TableCfg := [
  (HashedStorage, hashedStorageItem),
  (AccountChangeSet, dupItem),
  (StorageChangeSet, dupItem),
  (PlainState, plainStateItem),
  (CallTraceSet, dupItem),
  (AccountKeys, dupItem),
  (AccountHistoryKeys, dupItem),
  (AccountIdx, dupItem),
  (StorageKeys, dupItem),
  (StorageHistoryKeys, dupItem),
  (StorageIdx, dupItem),
  (CodeKeys, dupItem),
  (CodeHistoryKeys, dupItem),
  (CodeIdx, dupItem),
  (LogAddressKeys, dupItem),
  (LogAddressIdx, dupItem),
  (LogTopicsKeys, dupItem),
  (LogTopicsIdx, dupItem),
  (TracesFromKeys, dupItem),
  (TracesFromIdx, dupItem),
  (TracesToKeys, dupItem),
  (TracesToIdx, dupItem),
  (RAccountKeys, dupItem),
  (RAccountIdx, dupItem),
  (RStorageKeys, dupItem),
  (RStorageIdx, dupItem),
  (RCodeKeys, dupItem),
  (RCodeIdx, dupItem),
  (AccountsHistory, {}),
  (AccountHistoryVals, {}),
  (AccountSettings, {}),
  (AccountVals, {}),
  (BlockBody, {}),
  (BorTxLookup, {}),
  (EthTx, {}),
  (TxLookup, {}),
  (BorReceipts, {}),
  (BorSeparate, {}),
  (CallFromIndex, {}),
  (CallToIndex, {}),
  (HeaderCanonical, {}),
  (CliqueLastSnapshot, {}),
  (CliqueSeparate, {}),
  (CliqueSnapshot, {}),
  (Code, {}),
  (CodeHistoryVals, {}),
  (CodeSettings, {}),
  (CodeVals, {}),
  (ConfigTable, {}),
  (CumulativeGasIndex, {}),
  (CumulativeTransactionIndex, {}),
  (CurrentExecutionPayload, {}),
  (DatabaseInfo, {}),
  (Epoch, {}),
  (PendingEpoch, {}),
  (HashedAccounts, {}),
  (ContractCode, {}),
  (Headers, {}),
  (HeaderNumber, {}),
  (HeaderTD, {}),
  (IncarnationMap, {}),
  (Issuance, {}),
  (HeadBlockKey, {}),
  (LastForkchoice, {}),
  (HeadHeaderKey, {}),
  (LogAddressIndex, {}),
  (LogTopicIndex, {}),
  (Migrations, {}),
  (NonCanonicalTxs, {}),
  (ParliaSnapshot, {}),
  (PlainContractCode, {}),
  (Receipts, {}),
  (Sequence, {}),
  (Snapshots, {}),
  (StateAccounts, {}),
  (StateCode, {}),
  (StateCommitment, {}),
  (StateStorage, {}),
  (StorageHistory, {}),
  (StorageHistoryVals, {}),
  (StorageSettings, {}),
  (StorageVals, {}),
  (SyncStageProgress, {}),
  (ContractTEVMCode, {}),
  (Log, {}),
  (TrieOfAccounts, {}),
  (TrieOfStorage, {}),
  (Senders, {}),
  (Clique, depItem),
  (TransitionBlockKey, depItem)]

/-- Explicit value of the whole package state after `reinit` (helper for
evaluation lemmas). -/
def afterState : SchemaState :=
  { initState with
    chaindataTables := chaindataTablesSorted
    chaindataTablesCfg := chaindataCfgAfter
    txpoolTablesCfg := [(RecentLocalTransaction, {}), (PoolTransaction, {}), (PoolInfo, {})]
    downloaderTablesCfg := [(BittorrentCompletion, {}), (BittorrentInfo, {})]
    reconTablesCfg := [(XAccount, {}), (XStorage, {}), (XCode, {}), (PlainStateR, {}), (CodeR, {}), (PlainContractR, {})] }

/- Helper lemmas. -/

theorem charsLe_total : ∀ x y : List Char, charsLe x y = true ∨ charsLe y x = true
  | [], _ => Or.inl rfl
  | _ :: _, [] => Or.inr rfl
  | a :: as, b :: bs => by
    simp only [charsLe]
    rcases lt_trichotomy a b with h | h | h
    · left; simp [h]
    · subst h
      simp only [lt_irrefl, if_false]
      exact charsLe_total as bs
    · right; simp [h, lt_asymm h]

theorem charsLe_trans :
    ∀ x y z : List Char, charsLe x y = true → charsLe y z = true → charsLe x z = true
  | [], _, _, _, _ => rfl
  | _ :: _, [], _, h1, _ => by simp [charsLe] at h1
  | _ :: _, _ :: _, [], _, h2 => by simp [charsLe] at h2
  | a :: as, b :: bs, c :: cs, h1, h2 => by
    simp only [charsLe] at h1 h2 ⊢
    rcases lt_trichotomy a b with hab | hab | hab
    · rcases lt_trichotomy b c with hbc | hbc | hbc
      · simp [lt_trans hab hbc]
      · subst hbc; simp [hab]
      · rw [if_neg (lt_asymm hbc), if_pos hbc] at h2; simp at h2
    · subst hab
      rw [if_neg (lt_irrefl a), if_neg (lt_irrefl a)] at h1
      rcases lt_trichotomy a c with hac | hac | hac
      · simp [hac]
      · subst hac
        rw [if_neg (lt_irrefl a), if_neg (lt_irrefl a)] at h2 ⊢
        exact charsLe_trans as bs cs h1 h2
      · rw [if_neg (lt_asymm hac), if_pos hac] at h2; simp at h2
    · rw [if_neg (lt_asymm hab), if_pos hab] at h1; simp at h1

theorem charsLe_antisymm :
    ∀ x y : List Char, charsLe x y = true → charsLe y x = true → x = y
  | [], [], _, _ => rfl
  | [], _ :: _, _, h2 => by simp [charsLe] at h2
  | _ :: _, [], h1, _ => by simp [charsLe] at h1
  | a :: as, b :: bs, h1, h2 => by
    simp only [charsLe] at h1 h2
    rcases lt_trichotomy a b with hab | hab | hab
    · rw [if_neg (lt_asymm hab), if_pos hab] at h2; simp at h2
    · subst hab
      rw [if_neg (lt_irrefl a), if_neg (lt_irrefl a)] at h1 h2
      rw [charsLe_antisymm as bs h1 h2]
    · rw [if_neg (lt_asymm hab), if_pos hab] at h1; simp at h1

theorem strLe_total : ∀ a b : String, strLe a b ∨ strLe b a :=
  fun a b => charsLe_total a.data b.data

theorem strLe_trans : ∀ a b c : String, strLe a b → strLe b c → strLe a c :=
  fun a b c => charsLe_trans a.data b.data c.data

theorem strLe_antisymm : ∀ a b : String, strLe a b → strLe b a → a = b := by
  intro a b h1 h2
  have h := charsLe_antisymm a.data b.data h1 h2
  cases a
  cases b
  exact congrArg String.mk h

theorem mapGet_mapSet_self :
    ∀ (m : TableCfg) (k : String) (v : TableCfgItem), mapGet (mapSet m k v) k = some v
  | [], k, v => by simp [mapGet, mapSet]
  | p :: rest, k, v => by
    by_cases h : p.1 = k
    · simp [mapGet, mapSet, h]
    · simp [mapGet, mapSet, h, mapGet_mapSet_self rest k v]

theorem mapGet_mapSet_ne :
    ∀ (m : TableCfg) (k : String) (v : TableCfgItem) (q : String),
      q ≠ k → mapGet (mapSet m k v) q = mapGet m q
  | [], k, v, q, h => by
    have hk : ¬(k = q) := fun hh => h hh.symm
    simp [mapGet, mapSet, hk]
  | p :: rest, k, v, q, h => by
    by_cases hp : p.1 = k
    · have hk : ¬(k = q) := fun hh => h hh.symm
      simp [mapGet, mapSet, hp, hk]
    · by_cases hq : p.1 = q
      · simp [mapGet, mapSet, hp, hq, h]
      · simp [mapGet, mapSet, hp, hq, h, mapGet_mapSet_ne rest k v q h]

theorem mapGet_fillDefaults :
    ∀ (names : List String) (cfg : TableCfg) (name : String) (itm : TableCfgItem),
      mapGet cfg name = some itm → mapGet (fillDefaults cfg names) name = some itm
  | [], _, _, _, h => h
  | n :: rest, cfg, name, itm, h => by
    show mapGet
      (fillDefaults (if (mapGet cfg n).isSome then cfg else mapSet cfg n {}) rest) name = some itm
    apply mapGet_fillDefaults rest
    by_cases hn : (mapGet cfg n).isSome
    · rw [if_pos hn]; exact h
    · rw [if_neg hn]
      by_cases he : name = n
      · subst he; rw [h] at hn; simp at hn
      · rw [mapGet_mapSet_ne cfg n {} name he]; exact h

theorem markDeprecated_cons (cfg : TableCfg) (d : String) (rest : List String) :
    markDeprecated cfg (d :: rest) =
      markDeprecated
        (mapSet (if (mapGet cfg d).isSome then cfg else mapSet cfg d {}) d
          { ((mapGet (if (mapGet cfg d).isSome then cfg else mapSet cfg d {}) d).getD {}) with
              IsDeprecated := true }) rest := rfl

theorem mapGet_markDeprecated :
    ∀ (deps : List String) (cfg : TableCfg) (name : String) (itm : TableCfgItem),
      mapGet cfg name = some itm →
      mapGet (markDeprecated cfg deps) name =
        some (if name ∈ deps then { itm with IsDeprecated := true } else itm)
  | [], _, _, _, h => by simpa [markDeprecated] using h
  | d :: rest, cfg, name, itm, h => by
    rw [markDeprecated_cons]
    by_cases hd : d = name
    · subst hd
      have hsel : (if (mapGet cfg d).isSome then cfg else mapSet cfg d {}) = cfg := by
        rw [h]; rfl
      rw [hsel, h]
      simp only [Option.getD_some]
      have h2 := mapGet_mapSet_self cfg d { itm with IsDeprecated := true }
      rw [mapGet_markDeprecated rest _ d _ h2]
      by_cases hm : d ∈ rest <;> simp [hm]
    · have hsel : mapGet (if (mapGet cfg d).isSome then cfg else mapSet cfg d {}) name
          = some itm := by
        by_cases hs : (mapGet cfg d).isSome
        · rw [if_pos hs]; exact h
        · rw [if_neg hs, mapGet_mapSet_ne cfg d {} name (fun hh => hd hh.symm)]; exact h
      have hstep : mapGet
          (mapSet (if (mapGet cfg d).isSome then cfg else mapSet cfg d {}) d
            { ((mapGet (if (mapGet cfg d).isSome then cfg else mapSet cfg d {}) d).getD {}) with
                IsDeprecated := true }) name = some itm := by
        rw [mapGet_mapSet_ne _ d _ name (fun hh => hd hh.symm)]
        exact hsel
      rw [mapGet_markDeprecated rest _ name itm hstep]
      have hnd : ¬(name = d) := fun hh => hd hh.symm
      simp [List.mem_cons, hnd]

set_option maxHeartbeats 4000000 in
/-- Evaluation of `reinit` on the shipped package state: the result is the
explicit literal `afterState`. -/
theorem reinit_initState_eval : reinit initState = afterState := by rfl

/-- C1: for every table configuration with auto-DupSort conversion enabled
(the spec's configurations carry `dupFromLen >= dupToLen >= 0`; `dupToLen >= 0`
is required, a negative `DupToLen` would make the Go slice `k[:DupToLen]`
panic), and every key of length exactly `DupFromLen` and every value,
`decode` applied to the result of `encode` returns the original pair.
Instantiated below at the shipped `PlainState` (60/28) and `HashedStorage`
(72/40) configurations. -/
theorem dupsort_encode_decode_roundtrip (cfg : TableCfgItem) (k v : List Nat)
    (hauto : cfg.AutoDupSortKeysConversion = true)
    (h0 : 0 ≤ cfg.DupToLen)
    (hk : (k.length : Int) = cfg.DupFromLen) :
    decode cfg (encode cfg k v).1 (encode cfg k v).2 = (k, v) := by
  have henc : encode cfg k v
      = (k.take cfg.DupToLen.toNat, k.drop cfg.DupToLen.toNat ++ v) := by
    simp [encode, hauto, hk]
  rw [henc]
  by_cases hle : cfg.DupToLen ≤ cfg.DupFromLen
  · have ht : cfg.DupToLen.toNat ≤ k.length := by omega
    have hlen : (k.take cfg.DupToLen.toNat).length = cfg.DupToLen.toNat := by
      simp [List.length_take]
      omega
    have hguard : ((k.take cfg.DupToLen.toNat).length : Int) = cfg.DupToLen := by
      rw [hlen]; omega
    have hdlen : (k.drop cfg.DupToLen.toNat).length
        = (cfg.DupFromLen - cfg.DupToLen).toNat := by
      simp [List.length_drop]
      omega
    simp only [decode, hauto, hguard, true_and, if_pos]
    rw [List.take_left' hdlen, List.drop_left' hdlen, List.take_append_drop]
  · have ht : k.length ≤ cfg.DupToLen.toNat := by omega
    have htake : k.take cfg.DupToLen.toNat = k := List.take_of_length_le ht
    have hdrop : k.drop cfg.DupToLen.toNat = [] := List.drop_eq_nil_of_le ht
    have hguard : ¬((k.length : Int) = cfg.DupToLen) := by omega
    simp [decode, htake, hdrop, hguard]

/-- C1 witness: the round trip at the shipped `PlainState` (60/28) and
`HashedStorage` (72/40) parameters, on concrete keys and values. -/
theorem dupsort_encode_decode_roundtrip_witness :
    decode plainStateItem (encode plainStateItem (List.replicate 60 7) [1, 2, 3]).1
        (encode plainStateItem (List.replicate 60 7) [1, 2, 3]).2
      = (List.replicate 60 7, [1, 2, 3]) ∧
    decode hashedStorageItem (encode hashedStorageItem (List.replicate 72 9) [4]).1
        (encode hashedStorageItem (List.replicate 72 9) [4]).2
      = (List.replicate 72 9, [4]) :=
  ⟨dupsort_encode_decode_roundtrip plainStateItem (List.replicate 60 7) [1, 2, 3]
      rfl (by decide) (by decide),
   dupsort_encode_decode_roundtrip hashedStorageItem (List.replicate 72 9) [4]
      rfl (by decide) (by decide)⟩

/-- C2: `encode` is the identity when `AutoDupSortKeysConversion` is off; with
conversion on and `len(key) == DupFromLen` it splits the key at `DupToLen`
and moves the tail onto the front of the value; with conversion on and any
other key length it passes the pair through unchanged. -/
theorem encode_case_analysis (cfg : TableCfgItem) (k v : List Nat) :
    (cfg.AutoDupSortKeysConversion = false → encode cfg k v = (k, v)) ∧
    (cfg.AutoDupSortKeysConversion = true → (k.length : Int) = cfg.DupFromLen →
      encode cfg k v = (k.take cfg.DupToLen.toNat, k.drop cfg.DupToLen.toNat ++ v)) ∧
    (cfg.AutoDupSortKeysConversion = true → (k.length : Int) ≠ cfg.DupFromLen →
      encode cfg k v = (k, v)) := by
  refine ⟨fun h => ?_, fun h1 h2 => ?_, fun h1 h2 => ?_⟩ <;> simp [encode, *]

/-- C2 witness: pass-through on a conversion-disabled configuration, split on
the shipped `PlainState` configuration at key length 60, pass-through at any
other key length. -/
theorem encode_case_analysis_witness :
    encode {} [1, 2] [3] = ([1, 2], [3]) ∧
    encode plainStateItem (List.replicate 60 7) [3]
      = ((List.replicate 60 7).take 28, (List.replicate 60 7).drop 28 ++ [3]) ∧
    encode plainStateItem [1, 2] [3] = ([1, 2], [3]) :=
  ⟨(encode_case_analysis {} [1, 2] [3]).1 rfl,
   by
    have h := (encode_case_analysis plainStateItem (List.replicate 60 7) [3]).2.1 rfl (by decide)
    simpa using h,
   (encode_case_analysis plainStateItem [1, 2] [3]).2.2 rfl (by decide)⟩

/-- C5: `sortBuckets` sorts the name list into byte-wise ascending order
(`strLe` is Go's `strings.Compare(a, b) <= 0`), the result is a permutation
of the input, and any two permutations of the same names sort to the same
canonical list. -/
theorem sortBuckets_sorted_and_deterministic (l l2 : List String) (hperm : l.Perm l2) :
    (sortBuckets l).Sorted strLe ∧ (sortBuckets l).Perm l ∧ sortBuckets l = sortBuckets l2 := by
  haveI : IsTotal String strLe := ⟨strLe_total⟩
  haveI : IsTrans String strLe := ⟨strLe_trans⟩
  haveI : IsAntisymm String strLe := ⟨strLe_antisymm⟩
  refine ⟨List.sorted_insertionSort strLe l, List.perm_insertionSort strLe l, ?_⟩
  exact List.eq_of_perm_of_sorted
    ((List.perm_insertionSort strLe l).trans (hperm.trans (List.perm_insertionSort strLe l2).symm))
    (List.sorted_insertionSort strLe l) (List.sorted_insertionSort strLe l2)

/-- C5 witness: sorting a small catalog fragment, and agreement across a
permuted presentation of the same names. -/
theorem sortBuckets_sorted_and_deterministic_witness :
    (sortBuckets [Receipts, BlockBody, Headers]).Sorted strLe ∧
    (sortBuckets [Receipts, BlockBody, Headers]).Perm [Receipts, BlockBody, Headers] ∧
    sortBuckets [Receipts, BlockBody, Headers] = sortBuckets [Headers, Receipts, BlockBody] :=
  sortBuckets_sorted_and_deterministic [Receipts, BlockBody, Headers]
    [Headers, Receipts, BlockBody] (by decide)

set_option maxHeartbeats 4000000 in
/-- C6: `reinit` is idempotent on the shipped package state: running it a
second time on the state produced by the first run changes nothing — the
configuration maps of every catalog and the sorted table lists are
identical, with no duplicated or reordered entries. -/
theorem reinit_idempotent : reinit (reinit initState) = reinit initState := by
  rw [reinit_initState_eval]
  rfl

/-- C4: after `reinit`, every name in the chain-data deprecated list
(`Clique` and `TransitionBlockKey`) has an entry in the chain-data
configuration map with `IsDeprecated = true`, although neither name had an
explicit configuration entry beforehand. -/
theorem deprecated_names_marked :
    ∀ name ∈ ChaindataDeprecatedTables,
      (mapGet (reinit initState).chaindataTablesCfg name).map TableCfgItem.IsDeprecated
          = some true ∧
        mapGet initState.chaindataTablesCfg name = none := by
  rw [reinit_initState_eval]
  decide

/-- C4 witness: the `Clique` entry after `reinit`. -/
theorem deprecated_names_marked_witness :
    (mapGet (reinit initState).chaindataTablesCfg Clique).map TableCfgItem.IsDeprecated
      = some true :=
  (deprecated_names_marked Clique (by decide)).1

/-- C10: `reinit` never overwrites the fields of an existing configuration
entry other than `IsDeprecated`: an entry present before `reinit` keeps its
`Flags`, `AutoDupSortKeysConversion`, `DupFromLen`, `DupToLen` and `DBI`
verbatim, and `IsDeprecated` is forced to `true` exactly for the names on
the catalog's deprecated list (only chain-data has one). -/
theorem reinit_preserves_existing (st : SchemaState) (name : String) (itm : TableCfgItem) :
    (mapGet st.chaindataTablesCfg name = some itm →
      mapGet (reinit st).chaindataTablesCfg name =
        some (if name ∈ st.chaindataDeprecatedTables
          then { itm with IsDeprecated := true } else itm)) ∧
    (mapGet st.txpoolTablesCfg name = some itm →
      mapGet (reinit st).txpoolTablesCfg name = some itm) ∧
    (mapGet st.sentryTablesCfg name = some itm →
      mapGet (reinit st).sentryTablesCfg name = some itm) ∧
    (mapGet st.downloaderTablesCfg name = some itm →
      mapGet (reinit st).downloaderTablesCfg name = some itm) ∧
    (mapGet st.reconTablesCfg name = some itm →
      mapGet (reinit st).reconTablesCfg name = some itm) := by
  refine ⟨?_, ?_, ?_, ?_, ?_⟩ <;> intro h
  · exact mapGet_markDeprecated _ _ _ _ (mapGet_fillDefaults _ _ _ _ h)
  · exact mapGet_fillDefaults _ _ _ _ h
  · exact mapGet_fillDefaults _ _ _ _ h
  · exact mapGet_fillDefaults _ _ _ _ h
  · exact mapGet_fillDefaults _ _ _ _ h

/-- C10 witness: the pre-configured `PlainState` entry survives `reinit` of
the shipped state verbatim (it is not on the deprecated list). -/
theorem reinit_preserves_existing_witness :
    mapGet (reinit initState).chaindataTablesCfg PlainState = some plainStateItem := by
  have h := (reinit_preserves_existing initState PlainState plainStateItem).1 (by decide)
  rwa [if_neg (by decide)] at h

set_option maxHeartbeats 12000000 in
/-- C3: after `reinit`, for every catalog (chain-data, tx-pool, sentry,
downloader, recon), every name in that catalog's declared table list has
exactly one entry in the catalog's configuration map, and every declared
name without an explicit prior configuration receives the zero-value entry
(`flags = Default`, no DupSort conversion, not deprecated). -/
theorem reinit_catalogs_complete :
    catalogComplete ChaindataTables initState.chaindataTablesCfg
      (reinit initState).chaindataTablesCfg ∧
    catalogComplete TxPoolTables initState.txpoolTablesCfg
      (reinit initState).txpoolTablesCfg ∧
    catalogComplete SentryTables initState.sentryTablesCfg
      (reinit initState).sentryTablesCfg ∧
    catalogComplete DownloaderTables initState.downloaderTablesCfg
      (reinit initState).downloaderTablesCfg ∧
    catalogComplete ReconTables initState.reconTablesCfg
      (reinit initState).reconTablesCfg := by
  rw [reinit_initState_eval]
  decide

/-- C3 witness: `DatabaseInfo` is declared, was not explicitly configured,
and after `reinit` is bound exactly once, to the zero-value entry. -/
theorem reinit_catalogs_complete_witness :
    countKey (reinit initState).chaindataTablesCfg DatabaseInfo = 1 ∧
    mapGet (reinit initState).chaindataTablesCfg DatabaseInfo = some {} := by
  have h := reinit_catalogs_complete.1 DatabaseInfo (by decide)
  exact ⟨h.1, h.2 (by decide)⟩

set_option maxHeartbeats 4000000 in
/-- C7 counterexample: the name at position 1 of the sorted chain-data table
list (`AccountsHistory = "AccountHistory"`) has `DBI = 0`, not `1`: `reinit`
assigns no ordinals, so the claim "each name's `DBI` equals its position in
the sorted list" fails at this input. -/
theorem ordinal_claim_counterexample :
    (reinit initState).chaindataTables.getD 1 "" = AccountsHistory ∧
    (mapGet (reinit initState).chaindataTablesCfg AccountsHistory).map TableCfgItem.DBI
      = some 0 ∧
    (0 : Nat) ≠ 1 := by
  rw [reinit_initState_eval]
  decide

set_option maxHeartbeats 4000000 in
/-- C7 (amended): `reinit` does not assign ordinals at all — after it runs,
the `DBI` field of every entry of every catalog's configuration map is still
its zero value `0`. -/
theorem reinit_dbi_all_zero :
    ((reinit initState).chaindataTablesCfg.all fun p => p.2.DBI == 0) = true ∧
    ((reinit initState).txpoolTablesCfg.all fun p => p.2.DBI == 0) = true ∧
    ((reinit initState).sentryTablesCfg.all fun p => p.2.DBI == 0) = true ∧
    ((reinit initState).downloaderTablesCfg.all fun p => p.2.DBI == 0) = true ∧
    ((reinit initState).reconTablesCfg.all fun p => p.2.DBI == 0) = true := by
  rw [reinit_initState_eval]
  decide

set_option maxHeartbeats 4000000 in
/-- C8: in every catalog's configuration map after `reinit`, every entry with
`AutoDupSortKeysConversion` enabled satisfies `DupFromLen >= DupToLen >= 0`;
in the shipped configuration these are exactly `PlainState` (60/28) and
`HashedStorage` (72/40). -/
theorem dupsort_params_invariant :
    (∀ p ∈ (reinit initState).chaindataTablesCfg,
      p.2.AutoDupSortKeysConversion = true →
        p.2.DupToLen ≤ p.2.DupFromLen ∧ 0 ≤ p.2.DupToLen) ∧
    (∀ p ∈ (reinit initState).txpoolTablesCfg,
      p.2.AutoDupSortKeysConversion = true →
        p.2.DupToLen ≤ p.2.DupFromLen ∧ 0 ≤ p.2.DupToLen) ∧
    (∀ p ∈ (reinit initState).sentryTablesCfg,
      p.2.AutoDupSortKeysConversion = true →
        p.2.DupToLen ≤ p.2.DupFromLen ∧ 0 ≤ p.2.DupToLen) ∧
    (∀ p ∈ (reinit initState).downloaderTablesCfg,
      p.2.AutoDupSortKeysConversion = true →
        p.2.DupToLen ≤ p.2.DupFromLen ∧ 0 ≤ p.2.DupToLen) ∧
    (∀ p ∈ (reinit initState).reconTablesCfg,
      p.2.AutoDupSortKeysConversion = true →
        p.2.DupToLen ≤ p.2.DupFromLen ∧ 0 ≤ p.2.DupToLen) ∧
    mapGet (reinit initState).chaindataTablesCfg PlainState = some plainStateItem ∧
    mapGet (reinit initState).chaindataTablesCfg HashedStorage = some hashedStorageItem := by
  rw [reinit_initState_eval]
  decide

/-- C8 witness: the invariant instantiated at the `PlainState` binding of the
chain-data map after `reinit`. -/
theorem dupsort_params_invariant_witness :
    plainStateItem.DupToLen ≤ plainStateItem.DupFromLen ∧ 0 ≤ plainStateItem.DupToLen := by
  have h := dupsort_params_invariant.1
  rw [reinit_initState_eval] at h
  exact h (PlainState, plainStateItem) (by decide) rfl

set_option maxHeartbeats 4000000 in
/-- C9: the domain of the chain-data configuration map after `reinit` is
strictly larger than the set of declared chain-data table names: every
declared name is bound, and the deprecated names `Clique` and
`TransitionBlockKey` are also bound (with `IsDeprecated = true`) although
they appear neither in `ChaindataTables` nor in the sorted list. -/
theorem cfg_domain_strictly_larger :
    (∀ name ∈ ChaindataTables,
      (mapGet (reinit initState).chaindataTablesCfg name).isSome = true) ∧
    Clique ∉ ChaindataTables ∧
    TransitionBlockKey ∉ ChaindataTables ∧
    Clique ∉ (reinit initState).chaindataTables ∧
    TransitionBlockKey ∉ (reinit initState).chaindataTables ∧
    (mapGet (reinit initState).chaindataTablesCfg Clique).map TableCfgItem.IsDeprecated
      = some true ∧
    (mapGet (reinit initState).chaindataTablesCfg TransitionBlockKey).map
        TableCfgItem.IsDeprecated
      = some true := by
  rw [reinit_initState_eval]
  decide

/-- C9 witness: the declared name `PlainState` is in the map's domain. -/
theorem cfg_domain_strictly_larger_witness :
    (mapGet (reinit initState).chaindataTablesCfg PlainState).isSome = true :=
  cfg_domain_strictly_larger.1 PlainState (by decide)
